import Mathlib

/-!
# Overlap plugin — verification of the session store and hook handlers

Shallow embedding of the Overlap Claude-Code plugin (`plugin/scripts/`):
the session store (`config.py`), the registration coordinator (`api.py`),
and the hook handlers (`session-start.py`, `conflict-check.py`,
`heartbeat.py`, `session-end.py`), together with theorems settling the
spec claims about them.

Conventions of the embedding:
* Python dicts holding session entries become the `Entry` structure with
  `Option`-typed fields (`none` = key absent); Python truthiness of a
  string field is `isTruthyStr`.
* ISO-8601 timestamp strings are abstracted to `TimeField`: a string that
  `datetime.fromisoformat` parses is `.time t` (`t` the POSIX second),
  an empty or unparseable one is `.unparseable raw`.
* The sessions.json map becomes an association list `Sessions` keyed by
  the transcript key; `getTranscriptKey` stands for the SHA-256 prefix of
  the normalized path in `config._get_transcript_key` (the model only
  relies on it being a deterministic function of the path).
* Each process-level run is a pure state transformer over `World`
  (the persisted store plus an observation log of network calls and
  environment probes); nondeterministic surroundings (filesystem, server
  responses, `os.path.relpath`) live in `Env`.
-/

set_option autoImplicit false

namespace Overlap

/-- Python truthiness of an optional string value: `None` and `""` are
falsy, every other string is truthy. -/
def isTruthyStr : Option String → Bool
  | none => false
  | some s => !s.isEmpty

/-- Abstraction of a stored timestamp string: either a string
`datetime.fromisoformat` parses (kept as its POSIX second) or one it does
not (including the empty string, kept as raw text). -/
inductive TimeField where
  | unparseable (raw : String)
  | time (t : Int)
deriving Repr, DecidableEq

/-- The string-truthiness of the raw text a `TimeField` stands for:
`.time` values come from nonempty parseable strings. -/
def TimeField.truthy : TimeField → Bool
  | .unparseable raw => !raw.isEmpty
  | .time _ => true

/-- Result of `api.get_git_info`: each field is `None` or the captured
string. -/
structure GitInfo where
  repo_name : Option String := none
  remote_url : Option String := none
  branch : Option String := none
deriving Repr, DecidableEq

/-- The `session_info` snapshot captured at `pending`-entry creation time
(`api.ensure_session_registered`, step 4, and `session-start.py`). -/
structure SessionInfo where
  session_id : String
  device_name : String
  hostname : String
  is_remote : Bool
  worktree : String
  repo_name : Option String := none
  remote_url : Option String := none
  branch : Option String := none
deriving Repr, DecidableEq

/-- One entry of sessions.json. `none` in an `Option` field means the key
is absent from the dict. -/
structure Entry where
  overlap_session_id : Option String := none
  transcript_path : Option String := none
  worktree : Option String := none
  status : Option String := none
  created_at : Option TimeField := none
  session_info : Option SessionInfo := none
  last_heartbeat_at : Option TimeField := none
  last_write_heartbeat_at : Option TimeField := none
  last_read_heartbeat_at : Option TimeField := none
deriving Repr, DecidableEq

/-- The sessions.json map: an association list from transcript key to
entry (keys unique, as in a Python dict). -/
def Sessions := List (String × Entry)
deriving Repr, DecidableEq

/-- `config._get_transcript_key`: the source hashes the normalized path
(SHA-256 prefix); the model keeps the path itself as the key, which is a
deterministic injective stand-in. -/
def getTranscriptKey (transcript_path : String) : String := transcript_path

/-- Dict lookup `sessions.get(key)`. -/
def lookupKey : Sessions → String → Option Entry
  | [], _ => none
  | (k2, e) :: rest, k => if k2 == k then some e else lookupKey rest k

/-- Dict update `sessions[key] = entry`. -/
def setKey : Sessions → String → Entry → Sessions
  | [], k, e => [(k, e)]
  | (k2, e2) :: rest, k, e =>
      if k2 == k then (k, e) :: rest else (k2, e2) :: setKey rest k e

/-- Dict removal `del sessions[key]`. -/
def eraseKey : Sessions → String → Sessions
  | [], _ => []
  | (k2, e2) :: rest, k =>
      if k2 == k then rest else (k2, e2) :: eraseKey rest k


/-! ## Session store operations (`config.py`) -/

/-- `config.get_session_entry`: the full entry for a transcript, any
status. -/
def get_session_entry (s : Sessions) (transcript_path : String) : Option Entry :=
  lookupKey s (getTranscriptKey transcript_path)

/-- `config.get_session_for_transcript`: returns the overlap session id of
an entry when that id is truthy (back-compat: any entry with a truthy
`overlap_session_id` counts as active, status field or not). -/
def get_session_for_transcript (s : Sessions) (transcript_path : String) :
    Option String :=
  match get_session_entry s transcript_path with
  | none => none
  | some e => if isTruthyStr e.overlap_session_id then e.overlap_session_id else none

/-- The entry built by `config.save_session_for_transcript`: spread of the
existing entry (empty when absent) overridden by the five written keys;
`created_at` keeps the existing value when present, else the current time;
`session_info` is written only when one is passed. -/
def mergeEntry (now : Int) (existing : Option Entry) (transcript_path : String)
    (overlap_session_id : Option String) (worktree : String) (status : String)
    (session_info : Option SessionInfo) : Entry :=
  let ex := existing.getD {}
  let e : Entry :=
    { ex with
      overlap_session_id := overlap_session_id
      transcript_path := some transcript_path
      worktree := some worktree
      status := some status
      created_at := match ex.created_at with
        | some c => some c
        | none => some (.time now) }
  match session_info with
  | some si => { e with session_info := some si }
  | none => e

/-- `config.save_session_for_transcript`: atomic read-merge-write of one
entry (the file lock serializes this; the model's store is the
post-lock-release state). -/
def save_session_for_transcript (now : Int) (s : Sessions)
    (transcript_path : String) (overlap_session_id : Option String)
    (worktree : String) (status : String) (session_info : Option SessionInfo) :
    Sessions :=
  let key := getTranscriptKey transcript_path
  setKey s key
    (mergeEntry now (lookupKey s key) transcript_path overlap_session_id
      worktree status session_info)

/-- `config.clear_session_for_transcript`: delete the entry when
present. -/
def clear_session_for_transcript (s : Sessions) (transcript_path : String) :
    Sessions :=
  eraseKey s (getTranscriptKey transcript_path)

/-- Parameter list of `config.update_session_heartbeat_time` as defined in
config.py: a single positional parameter. -/
def updateSessionHeartbeatTimeParams : List String := ["transcript_path"]

/-- The keyword arguments heartbeat.py passes to
`update_session_heartbeat_time` (after one positional argument). -/
def updateHeartbeatCallKeywords : List String := ["is_write"]

/-- Python call compatibility: after the positional argument consumes the
first parameter, every keyword argument must name a remaining parameter,
otherwise the call raises `TypeError`. -/
def updateHeartbeatCallOk : Bool :=
  updateHeartbeatCallKeywords.all
    (fun kw => (updateSessionHeartbeatTimeParams.drop 1).contains kw)

/-- Body of `config.update_session_heartbeat_time`: when the key exists,
set `last_heartbeat_at` to the current time (this is the only heartbeat
timestamp field any code in the repository writes). -/
def update_session_heartbeat_time (now : Int) (s : Sessions)
    (transcript_path : String) : Sessions :=
  let key := getTranscriptKey transcript_path
  match lookupKey s key with
  | some e => setKey s key { e with last_heartbeat_at := some (.time now) }
  | none => s

/-- The heartbeat handler's attempt to call
`update_session_heartbeat_time(transcript_path, is_write=...)`: the call
only runs the body when the keyword arguments are accepted by the
signature; otherwise it raises `TypeError` before touching the store. -/
def attemptUpdateHeartbeatTime (now : Int) (s : Sessions)
    (transcript_path : String) : Except Unit Sessions :=
  if updateHeartbeatCallOk then
    .ok (update_session_heartbeat_time now s transcript_path)
  else .error ()

/-- The removal test of `config.gc_stale_sessions`: an entry is collected
when `created_at` is missing (or empty), unparseable, or strictly older
than the age ceiling. -/
def gcRemove (now : Int) (max_age_hours : Int) (e : Entry) : Bool :=
  match e.created_at with
  | none => true
  | some (.unparseable _) => true
  | some (.time t) => decide (now - t > max_age_hours * 3600)

/-- `config.gc_stale_sessions`: collects the keys whose entries satisfy
`gcRemove`, deletes them, and returns the surviving map together with the
number removed (keys are unique, so deleting the collected keys removes
exactly the entries that satisfied the test). -/
def gc_stale_sessions (now : Int) (max_age_hours : Int) (s : Sessions) :
    Sessions × Nat :=
  (s.filter (fun ke => !gcRemove now max_age_hours ke.2),
   (s.filter (fun ke => gcRemove now max_age_hours ke.2)).length)

/-! ## Registration coordinator (`api.py`) -/

/-- Outcome of one `POST /api/v1/sessions/start` call: either
`api_request` raised, or it returned and `response.get("data",
{}).get("session_id")` is the given optional value. -/
inductive StartResult where
  | err
  | ok (session_id : Option String)

/-- Outcome of one `POST /api/v1/sessions/{id}/heartbeat` call:
`api_request` raised (with `notFoundSignal` standing for the test
whether the message contains "404" or "not found"), or returned with the
given `data.throttled` and `data.reactivated` flags. -/
inductive HBResp where
  | err (notFoundSignal : Bool)
  | ok (throttled : Bool) (reactivated : Bool)

/-- The process environment a hook run observes: the filesystem, the
environment probe results, the clock, `os.path.relpath`, and the server
responses to the n-th start / heartbeat calls of the run. -/
structure Env where
  transcriptExists : Bool
  hostname : String
  device_name : String
  is_remote : Bool
  git : GitInfo
  now : Int
  relpath : String → String → String
  startResp : Nat → StartResult
  hbResp : Nat → HBResp

/-- The body of a `POST /api/v1/sessions/start` request. -/
structure StartRequest where
  session_id : String
  device_name : String
  hostname : String
  is_remote : Bool
  worktree : String
  repo_name : Option String := none
  remote_url : Option String := none
  branch : Option String := none
deriving Repr, DecidableEq

/-- One heartbeat request: the remote session id it targets, the files
list, and the tool name. -/
structure HBRequest where
  session : String
  files : List String
  tool_name : String
deriving Repr, DecidableEq

/-- Observable state of a scenario: the persisted store plus a log of
network calls and environment probes performed so far. -/
structure World where
  sessions : Sessions
  probes : Nat := 0
  startCalls : Nat := 0
  startRequests : List StartRequest := []
  hbCalls : Nat := 0
  hbRequests : List HBRequest := []
  checkCalls : Nat := 0
  checkRequests : List (List String) := []
deriving Repr, DecidableEq

/-- Keep an optional string only when truthy, as the
`if session_info.get(field):` guards in `register_pending_session` and
`ensure_session_registered` do. -/
def keepTruthy (o : Option String) : Option String :=
  if isTruthyStr o then o else none

/-- The request body `api.register_pending_session` builds from a stored
entry: base fields from `entry.get("session_info", {})` with `""`/`False`
defaults, `worktree` falling back to the entry's own, and git fields only
when truthy. -/
def buildStartRequest (e : Entry) : StartRequest :=
  match e.session_info with
  | some si =>
      { session_id := si.session_id
        device_name := si.device_name
        hostname := si.hostname
        is_remote := si.is_remote
        worktree := si.worktree
        repo_name := keepTruthy si.repo_name
        remote_url := keepTruthy si.remote_url
        branch := keepTruthy si.branch }
  | none =>
      { session_id := ""
        device_name := ""
        hostname := ""
        is_remote := false
        worktree := e.worktree.getD "" }

/-- `api.register_pending_session`: re-checks for an already-registered
session, requires a `pending` entry, posts a start request built from the
entry's captured `session_info`, and on a truthy returned id upserts the
entry to `active` with it; any raise or missing id yields `none` (the
handler's broad `except` swallows it). -/
def register_pending_session (env : Env) (transcript_path : String)
    (w : World) : Option String × World :=
  match get_session_for_transcript w.sessions transcript_path with
  | some existing => (some existing, w)
  | none =>
    match get_session_entry w.sessions transcript_path with
    | none => (none, w)
    | some entry =>
      if entry.status != some "pending" then (none, w)
      else
        let n := w.startCalls
        let w1 := { w with
          startCalls := n + 1
          startRequests := w.startRequests ++ [buildStartRequest entry] }
        match env.startResp n with
        | .err => (none, w1)
        | .ok sid =>
          if isTruthyStr sid then
            let sidV := sid.getD ""
            let s2 := save_session_for_transcript env.now w1.sessions
              transcript_path (some sidV) (entry.worktree.getD "") "active" none
            (some sidV, { w1 with sessions := s2 })
          else (none, w1)

/-- The fresh `session_info` gathered by `ensure_session_registered`
step 4 (and by `session-start.py`): one environment probe, git fields
kept only when truthy. -/
def probeSessionInfo (env : Env) (host_session_id cwd : String) : SessionInfo :=
  { session_id := host_session_id
    device_name := env.device_name
    hostname := env.hostname
    is_remote := env.is_remote
    worktree := cwd
    repo_name := keepTruthy env.git.repo_name
    remote_url := keepTruthy env.git.remote_url
    branch := keepTruthy env.git.branch }

/-- `api.ensure_session_registered`: 1. answer from an active entry;
2. register a `pending` entry; 3. ghost filter on the transcript file;
4. probe once, upsert a fresh `pending` entry and register it. -/
def ensure_session_registered (env : Env) (transcript_path : String)
    (host_session_id cwd : String) (w : World) : Option String × World :=
  match get_session_for_transcript w.sessions transcript_path with
  | some existing => (some existing, w)
  | none =>
    if ((get_session_entry w.sessions transcript_path).bind Entry.status)
        == some "pending" then
      register_pending_session env transcript_path w
    else if !env.transcriptExists then (none, w)
    else
      let w1 := { w with probes := w.probes + 1 }
      let info := probeSessionInfo env host_session_id cwd
      let s2 := save_session_for_transcript env.now w1.sessions transcript_path
        none cwd "pending" (some info)
      register_pending_session env transcript_path { w1 with sessions := s2 }

/-! ## Shared utilities (`utils.py`) -/

/-- One element of a MultiEdit `edits` list (only its `file_path` key
matters to the extractors). -/
structure EditItem where
  file_path : Option String := none
deriving Repr, DecidableEq

/-- The `tool_input` dict, with `none` for absent keys and the `""`
default the Bash branch uses for `command`. -/
structure ToolInput where
  file_path : Option String := none
  edits : List EditItem := []
  notebook_path : Option String := none
  path : Option String := none
  command : String := ""
deriving Repr, DecidableEq

/-- `[path] if path else []`. -/
def optToList (o : Option String) : List String :=
  match o with
  | some s => if s.isEmpty then [] else [s]
  | none => []

/-- The accumulation loop of `utils.extract_file_paths` for MultiEdit:
append each truthy `file_path` not seen before (the source keeps a `seen`
set whose contents always equal the accumulated list, so membership is
tested on the accumulator). -/
def multiEditGo : List EditItem → List String → List String
  | [], acc => acc
  | e :: rest, acc =>
    match e.file_path with
    | some p =>
        if !p.isEmpty && !acc.contains p then multiEditGo rest (acc ++ [p])
        else multiEditGo rest acc
    | none => multiEditGo rest acc

/-- The MultiEdit branch of `utils.extract_file_paths`: all distinct
truthy target paths in order of first appearance. -/
def multiEditPaths (edits : List EditItem) : List String :=
  multiEditGo edits []

/-- `utils.extract_file_paths`: dispatch on the tool name. -/
def extract_file_paths (tool_input : ToolInput) (tool_name : String) :
    List String :=
  if tool_name == "Write" || tool_name == "Edit" then
    optToList tool_input.file_path
  else if tool_name == "MultiEdit" then multiEditPaths tool_input.edits
  else if tool_name == "NotebookEdit" then optToList tool_input.notebook_path
  else if tool_name == "Read" then optToList tool_input.file_path
  else if tool_name == "Grep" || tool_name == "Glob" then
    optToList tool_input.path
  else if tool_name == "Bash" then
    if tool_input.command.isEmpty then [] else [tool_input.command.take 200]
  else []

/-- `utils.WRITE_TOOLS`. -/
def WRITE_TOOLS : List String := ["Write", "Edit", "MultiEdit", "NotebookEdit"]

/-- `utils.is_write_tool`. -/
def is_write_tool (tool_name : String) : Bool := WRITE_TOOLS.contains tool_name

/-- `os.path.isabs` on the POSIX paths this plugin handles: the path
begins with a slash. -/
def pathIsAbs (p : String) : Bool :=
  match p.data with
  | [] => false
  | c :: _ => c == '/'

/-- `utils.make_relative`: relativize an absolute path against `cwd`
(`os.path.relpath` itself is the environment-supplied `relpath`); leave
relative paths unchanged. -/
def make_relative (relpath : String → String → String) (file_path cwd : String) :
    String :=
  if pathIsAbs file_path then relpath file_path cwd else file_path

/-! ## Pre-tool-use conflict check (`conflict-check.py`) -/

/-- `conflict-check.extract_file_path` (the handler's own single-path
extractor): one optional path — for MultiEdit, the first edit's
`file_path`. -/
def extract_file_path (tool_input : ToolInput) (tool_name : String) :
    Option String :=
  if tool_name == "Write" || tool_name == "Edit" then tool_input.file_path
  else if tool_name == "MultiEdit" then
    match tool_input.edits with
    | [] => none
    | e :: _ => e.file_path
  else if tool_name == "NotebookEdit" then tool_input.notebook_path
  else none

/-- The stdin event fields the pre- and post-tool-use handlers read. -/
structure ToolHookInput where
  transcript_path : String
  session_id : String
  cwd : String
  tool_name : String
  tool_input : ToolInput

/-- Where a conflict-check run exited (every branch exits with status 0). -/
inductive CCExit where
  | notConfigured
  | noTranscript
  | noSession
  | noFilePath
  | done
deriving Repr, DecidableEq, BEq

/-- `conflict-check.main`: look up the session, extract the single path,
relativize it, and post `{"files": [file_path]}` to the check endpoint
(the response only shapes stdout/stderr text and any failure is
swallowed, so the run always ends in `done` once the call is issued). -/
def conflict_check_main (env : Env) (configured : Bool) (inp : ToolHookInput)
    (w : World) : CCExit × World :=
  if !configured then (.notConfigured, w)
  else if inp.transcript_path.isEmpty then (.noTranscript, w)
  else
    match get_session_for_transcript w.sessions inp.transcript_path with
    | none => (.noSession, w)
    | some _ =>
      let fp := extract_file_path inp.tool_input inp.tool_name
      if !isTruthyStr fp then (.noFilePath, w)
      else
        let rel := make_relative env.relpath (fp.getD "") inp.cwd
        (.done,
         { w with
            checkCalls := w.checkCalls + 1
            checkRequests := w.checkRequests ++ [[rel]] })

/-! ## Post-tool-use heartbeat (`heartbeat.py`) -/

/-- `heartbeat.THROTTLE_SECONDS`. -/
def THROTTLE_SECONDS : Int := 5

/-- The throttle test on one stored timestamp field: a truthy, parseable
timestamp within the window throttles; an absent, empty, or unparseable
one proceeds. -/
def throttleHit (now : Int) (field : Option TimeField) : Bool :=
  match field with
  | some (.time t) => decide (now - t < THROTTLE_SECONDS)
  | _ => false

/-- The timestamp field the heartbeat throttle reads:
`last_write_heartbeat_at` for write tools, `last_read_heartbeat_at`
otherwise. -/
def heartbeatThrottleField (is_write : Bool) (e : Entry) : Option TimeField :=
  if is_write then e.last_write_heartbeat_at else e.last_read_heartbeat_at

/-- The heartbeat handler's client-side throttle decision, from the
stored entry of the transcript (no entry: proceed). -/
def heartbeatThrottled (now : Int) (s : Sessions) (transcript_path : String)
    (tool_name : String) : Bool :=
  match get_session_entry s transcript_path with
  | some e => throttleHit now (heartbeatThrottleField (is_write_tool tool_name) e)
  | none => false

/-- Where a heartbeat run exited (every branch exits with status 0). -/
inductive HBExit where
  | notConfigured
  | noTranscript
  | noSession
  | throttled
  | noFiles
  | done
deriving Repr, DecidableEq, BEq

/-- The tail of `heartbeat.main` after a heartbeat response: on a
server-throttled response do nothing; otherwise call
`update_session_heartbeat_time(transcript_path, is_write=is_write)`,
which raises `TypeError` when the keyword is not accepted — the raise is
caught by the enclosing broad `except`, whose message carries no
"404"/"not found" signal, so the handler just logs and exits. -/
def heartbeatAfterOk (env : Env) (transcript_path : String) (throttledSrv : Bool)
    (w : World) : HBExit × World :=
  if throttledSrv then (.done, w)
  else
    match attemptUpdateHeartbeatTime env.now w.sessions transcript_path with
    | .ok s2 => (.done, { w with sessions := s2 })
    | .error _ => (.done, w)

/-- The not-found recovery of `heartbeat.main`: clear the local entry,
re-register, and on success retry the heartbeat once against the new id
(its own update call is guarded by an inner broad `except`). -/
def heartbeatRecover (env : Env) (inp : ToolHookInput)
    (relative_paths : List String) (w : World) : HBExit × World :=
  let w0 := { w with
    sessions := clear_session_for_transcript w.sessions inp.transcript_path }
  let res := ensure_session_registered env inp.transcript_path inp.session_id
    inp.cwd w0
  match res.1 with
  | none => (.done, res.2)
  | some newId =>
    let w1 := res.2
    let m := w1.hbCalls
    let w2 := { w1 with
      hbCalls := m + 1
      hbRequests := w1.hbRequests ++
        [{ session := newId, files := relative_paths,
           tool_name := inp.tool_name }] }
    match env.hbResp m with
    | .ok _ _ =>
      match attemptUpdateHeartbeatTime env.now w2.sessions inp.transcript_path with
      | .ok s2 => (.done, { w2 with sessions := s2 })
      | .error _ => (.done, w2)
    | .err _ => (.done, w2)

/-- `heartbeat.main`: configured check, transcript check, lazy
registration, dual-field client-side throttle, path extraction and
relativization, then the heartbeat call with its response handling and
not-found recovery. -/
def heartbeat_main (env : Env) (configured : Bool) (inp : ToolHookInput)
    (w : World) : HBExit × World :=
  if !configured then (.notConfigured, w)
  else if inp.transcript_path.isEmpty then (.noTranscript, w)
  else
    let reg := ensure_session_registered env inp.transcript_path inp.session_id
      inp.cwd w
    match reg.1 with
    | none => (.noSession, reg.2)
    | some oid =>
      let w1 := reg.2
      if heartbeatThrottled env.now w1.sessions inp.transcript_path
          inp.tool_name then (.throttled, w1)
      else
        let file_paths := extract_file_paths inp.tool_input inp.tool_name
        if file_paths.isEmpty then (.noFiles, w1)
        else
          let relative_paths :=
            file_paths.map (fun p => make_relative env.relpath p inp.cwd)
          let n := w1.hbCalls
          let w2 := { w1 with
            hbCalls := n + 1
            hbRequests := w1.hbRequests ++
              [{ session := oid, files := relative_paths,
                 tool_name := inp.tool_name }] }
          match env.hbResp n with
          | .ok throttledSrv _ =>
              heartbeatAfterOk env inp.transcript_path throttledSrv w2
          | .err notFound =>
              if notFound then heartbeatRecover env inp relative_paths w2
              else (.done, w2)

/-! ## Session-start handler (`session-start.py`) -/

/-- The stdin event fields `session-start.main` reads. -/
structure SSInput where
  source : String
  transcript_path : String
  session_id : String
  cwd : String

/-- Where a session-start run's main body exited (every branch ends in
`sys.exit(0)`). -/
inductive SSExit where
  | badSource
  | notConfigured
  | noTranscript
  | ghost
  | lockBusy
  | alreadyTracked
  | registered
  | noId
  | apiError
deriving Repr, DecidableEq, BEq

/-- `session-start.main` (the body of the function; the module's imports
are modeled separately): source filter, configured check, transcript
checks, per-transcript lock, existing-session check, then one environment
probe and one start call, saving an `active` entry on a truthy returned
id. -/
def session_start_main (env : Env) (configured lockOk : Bool) (inp : SSInput)
    (w : World) : SSExit × World :=
  if !(inp.source == "startup" || inp.source == "resume") then (.badSource, w)
  else if !configured then (.notConfigured, w)
  else if inp.transcript_path.isEmpty then (.noTranscript, w)
  else if !env.transcriptExists then (.ghost, w)
  else if !lockOk then (.lockBusy, w)
  else
    match get_session_for_transcript w.sessions inp.transcript_path with
    | some _ => (.alreadyTracked, w)
    | none =>
      let req : StartRequest :=
        { session_id := inp.session_id
          device_name := env.device_name
          hostname := env.hostname
          is_remote := env.is_remote
          worktree := inp.cwd
          repo_name := keepTruthy env.git.repo_name
          remote_url := keepTruthy env.git.remote_url
          branch := keepTruthy env.git.branch }
      let n := w.startCalls
      let w1 := { w with
        probes := w.probes + 1
        startCalls := n + 1
        startRequests := w.startRequests ++ [req] }
      match env.startResp n with
      | .err => (.apiError, w1)
      | .ok sid =>
        if isTruthyStr sid then
          let s2 := save_session_for_transcript env.now w1.sessions
            inp.transcript_path sid inp.cwd "active" none
          (.registered, { w1 with sessions := s2 })
        else (.noId, w1)

/-! ## Session-end handler (`session-end.py`) -/

/-- Where a session-end run exited (every branch ends in
`sys.exit(0)`). -/
inductive SEExit where
  | notConfigured
  | noTranscript
  | noSession
  | done
deriving Repr, DecidableEq, BEq

/-- Outcome of the `POST /sessions/{id}/end` call. -/
inductive EndResult where
  | err
  | ok

/-- `session-end.main`: look up the session, best-effort end call, and
unconditionally clear the local entry afterwards (the `finally` block). -/
def session_end_main (endResp : EndResult) (configured : Bool)
    (transcript_path : String) (w : World) : SEExit × World :=
  if !configured then (.notConfigured, w)
  else if transcript_path.isEmpty then (.noTranscript, w)
  else
    match get_session_for_transcript w.sessions transcript_path with
    | none => (.noSession, w)
    | some _ =>
      let s2 := clear_session_for_transcript w.sessions transcript_path
      match endResp with
      | .ok => (.done, { w with sessions := s2 })
      | .err => (.done, { w with sessions := s2 })

/-! ## Module imports (`from config import ...`)

A Python `from config import X` statement resolves each name against the
attributes of the `config` module — its top-level imports, constants and
functions. A name that does not resolve raises `ImportError` at module
load time, before `main` is entered, and an uncaught exception terminates
the interpreter with a nonzero exit status. -/

/-- The attributes of `config.py`: its module-level imports, constants,
and function definitions, transcribed from the source. -/
def configModuleExports : List String :=
  ["fcntl", "hashlib", "json", "os", "contextmanager", "datetime", "timezone",
   "Path", "Optional",
   "CONFIG_DIR", "CONFIG_FILE", "SESSIONS_FILE", "LOCK_FILE",
   "_log", "_get_transcript_key", "_load_sessions", "_save_sessions",
   "_locked_sessions",
   "get_config", "save_config", "get_session_for_transcript",
   "get_session_entry", "save_session_for_transcript",
   "clear_session_for_transcript", "update_session_heartbeat_time",
   "gc_stale_sessions", "is_configured"]

/-- The names `session-start.py` imports from `config` (lines 24-30). -/
def sessionStartConfigImports : List String :=
  ["is_configured", "get_session_for_transcript",
   "save_session_for_transcript", "get_lock_file_for_transcript",
   "CONFIG_DIR"]

/-- The names `heartbeat.py` imports from `config`. -/
def heartbeatConfigImports : List String :=
  ["is_configured", "get_session_entry", "update_session_heartbeat_time",
   "clear_session_for_transcript", "save_session_for_transcript"]

/-- The names `conflict-check.py` imports from `config`. -/
def conflictCheckConfigImports : List String :=
  ["is_configured", "get_session_for_transcript"]

/-- The names `session-end.py` imports from `config`. -/
def sessionEndConfigImports : List String :=
  ["is_configured", "get_session_for_transcript",
   "clear_session_for_transcript"]

/-- Whether every imported name resolves against the module's
attributes. -/
def importsResolve (imports exports : List String) : Bool :=
  imports.all (fun n => exports.contains n)

/-- Process exit status of one session-start hook invocation: the import
failure (if any) happens before stdin is read or `main` runs, and an
uncaught `ImportError` exits the interpreter with status 1; every path of
`main` itself ends in `sys.exit(0)`. -/
def session_start_exit_status : Nat :=
  if importsResolve sessionStartConfigImports configModuleExports then 0 else 1

/-! ## Transport client (`api.api_request`) -/

/-- The body of an HTTP error response, together with what `json.loads`
makes of it: `notJson` when parsing raises `JSONDecodeError`, `jsonBody`
when it yields an object with (`some`) or without (`none`) an `"error"`
field. -/
inductive ErrBody where
  | notJson (raw : String)
  | jsonBody (raw : String) (errField : Option String)
deriving Repr, DecidableEq

/-- The raw text of an error body. -/
def ErrBody.raw : ErrBody → String
  | .notJson r => r
  | .jsonBody r _ => r

/-- Outcome of one `urlopen` attempt inside `api_request`. -/
inductive AttemptOutcome where
  | success (resp : Nat)
  | httpError (code : Nat) (body : ErrBody)
  | connError (msg : String)

/-- The exception message `api_request` raises for a 4xx response:
the body's `"error"` field when the body parses as JSON and has one, the
default `HTTP {code}` when it parses without one, and
`HTTP {code}: {body}` when parsing fails. -/
def http4xxMessage (code : Nat) (body : ErrBody) : String :=
  match body with
  | .jsonBody _ (some msg) => msg
  | .jsonBody _ none => s!"HTTP {code}"
  | .notJson raw => s!"HTTP {code}: {raw}"

/-- The `last_error` message recorded for a retryable (non-4xx) HTTP
error. -/
def httpRetryMessage (code : Nat) (body : ErrBody) : String :=
  s!"HTTP {code}: {body.raw}"

/-- The `last_error` message recorded for a `URLError`/timeout. -/
def connMessage (msg : String) : String := s!"Connection error: {msg}"

/-- The retry loop of `api_request`, from attempt `idx` with `remaining`
attempts left: before every attempt but the first, sleep
`backoff_base * 2 ^ (attempt - 1)`; a success returns; a 4xx raises
immediately; other HTTP errors and connection errors record `last_error`
and continue; an exhausted budget raises the last error. Returns the
result, the number of attempts made, and the sleeps performed. -/
def apiRequestGo (outcomes : Nat → AttemptOutcome) (backoff_base : ℚ) :
    Nat → Nat → Option String → Except String Nat × Nat × List ℚ
  | _, 0, lastErr => (.error (lastErr.getD ""), 0, [])
  | idx, r + 1, _ =>
    let sleeps : List ℚ :=
      if idx > 0 then [backoff_base * 2 ^ (idx - 1)] else []
    match outcomes idx with
    | .success v => (.ok v, 1, sleeps)
    | .httpError code body =>
      if 400 ≤ code ∧ code < 500 then
        (.error (http4xxMessage code body), 1, sleeps)
      else
        let rest := apiRequestGo outcomes backoff_base (idx + 1) r
          (some (httpRetryMessage code body))
        (rest.1, rest.2.1 + 1, sleeps ++ rest.2.2)
    | .connError msg =>
        let rest := apiRequestGo outcomes backoff_base (idx + 1) r
          (some (connMessage msg))
        (rest.1, rest.2.1 + 1, sleeps ++ rest.2.2)

/-- `api.api_request` with `retries` retry attempts (total `retries + 1`
attempts), abstracted over the per-attempt transport outcomes. -/
def api_request_model (outcomes : Nat → AttemptOutcome) (backoff_base : ℚ)
    (retries : Nat) : Except String Nat × Nat × List ℚ :=
  apiRequestGo outcomes backoff_base 0 (retries + 1) none

/-! ## Spec-side definitions

These definitions follow the words of the spec claims (not the source)
and exist to be compared with the source-side definitions above. -/

/-- Spec step 2 (registration of a known `pending` entry `e`): one start
call whose request is built from the entry's captured `session_info`
(no environment probe); on success the entry is atomically upserted to
`active` with the returned id, which is returned; on failure nothing is
returned. -/
def specRegisterPending (env : Env) (transcript_path : String) (e : Entry)
    (w : World) : Option String × World :=
  let n := w.startCalls
  let w1 := { w with
    startCalls := n + 1
    startRequests := w.startRequests ++ [buildStartRequest e] }
  match env.startResp n with
  | .err => (none, w1)
  | .ok sid =>
    if isTruthyStr sid then
      let sidV := sid.getD ""
      let s2 := save_session_for_transcript env.now w1.sessions transcript_path
        (some sidV) (e.worktree.getD "") "active" none
      (some sidV, { w1 with sessions := s2 })
    else (none, w1)

/-- Spec steps 3 and 4: if the host transcript file does not exist,
return nothing with no entry created and no network call; otherwise probe
the environment once, atomically upsert a fresh `pending` entry built
from the probe, and immediately run step 2 on that entry. -/
def specFreshRegistration (env : Env) (transcript_path host_session_id cwd : String)
    (w : World) : Option String × World :=
  if !env.transcriptExists then (none, w)
  else
    let w1 := { w with probes := w.probes + 1 }
    let info := probeSessionInfo env host_session_id cwd
    let key := getTranscriptKey transcript_path
    let e := mergeEntry env.now (lookupKey w.sessions key) transcript_path none
      cwd "pending" (some info)
    specRegisterPending env transcript_path e
      { w1 with sessions := setKey w1.sessions key e }

/-- The four-step short-circuiting decision procedure the spec states for
`ensureRegistered`: 1. an active entry answers from the store with no
network call and no state change; 2. a `pending` entry is registered from
its captured `session_info`; 3. a missing transcript file returns nothing
and touches nothing; 4. otherwise probe once, upsert `pending`, register
immediately. -/
def ensureRegisteredSpec (env : Env) (transcript_path host_session_id cwd : String)
    (w : World) : Option String × World :=
  match get_session_for_transcript w.sessions transcript_path with
  | some id => (some id, w)
  | none =>
    match get_session_entry w.sessions transcript_path with
    | some e =>
      if e.status == some "pending" then
        specRegisterPending env transcript_path e w
      else specFreshRegistration env transcript_path host_session_id cwd w
    | none => specFreshRegistration env transcript_path host_session_id cwd w

/-- Spec-side first-appearance deduplication: keep the first occurrence
of each string, dropping the later ones. -/
def dedupKeepFirst : List String → List String
  | [] => []
  | p :: rest => p :: dedupKeepFirst (rest.filter (fun q => q != p))
termination_by l => l.length
decreasing_by
  simpa using Nat.lt_succ_of_le (List.length_filter_le _ rest)

/-- The truthy path of one MultiEdit edit item, as the spec-side raw path
sequence sees it. -/
def truthyPath (e : EditItem) : Option String :=
  match e.file_path with
  | some p => if p.isEmpty then none else some p
  | none => none

/-! ## Parametric scenario builders -/

/-- An environment with the given `relpath` and clock, transcript on
disk, start calls raising and heartbeat calls succeeding un-throttled. -/
def bashEnv (relp : String → String → String) (now : Int) : Env :=
  { transcriptExists := true
    hostname := "host"
    device_name := "dev"
    is_remote := false
    git := {}
    now := now
    relpath := relp
    startResp := fun _ => .err
    hbResp := fun _ => .ok false false }

/-- An `active` entry for the given transcript path and remote id. -/
def activeEntryFor (p sid : String) : Entry :=
  { overlap_session_id := some sid
    transcript_path := some p
    worktree := some "/w"
    status := some "active"
    created_at := some (.time 0) }

/-- A store holding only `activeEntryFor p sid`. -/
def activeWorldFor (p sid : String) : World :=
  { sessions := [(getTranscriptKey p, activeEntryFor p sid)] }

/-- A post-tool-use `Bash` event with the given command. -/
def bashHookInput (p cs cwd cmd : String) : ToolHookInput :=
  { transcript_path := p
    session_id := cs
    cwd := cwd
    tool_name := "Bash"
    tool_input := { command := cmd } }

/-! ## Concrete scenario data

Small closed worlds and inputs used by counterexamples and witnesses. -/

/-- A baseline environment: transcript file on disk, trivial git probe,
identity `relpath`, start calls raising, heartbeat calls succeeding
un-throttled. -/
def envBase : Env :=
  { transcriptExists := true
    hostname := "host"
    device_name := "dev"
    is_remote := false
    git := {}
    now := 100
    relpath := fun p _ => p
    startResp := fun _ => .err
    hbResp := fun _ => .ok false false }

/-- An environment whose start endpoint returns the fixed id `"S1"`. -/
def okStartEnv : Env := { envBase with startResp := fun _ => .ok (some "S1") }

/-- An `active` entry for transcript `"t1"` with remote id `"S"` and no
heartbeat timestamps. -/
def sampleActiveEntry : Entry :=
  { overlap_session_id := some "S"
    transcript_path := some "t1"
    worktree := some "/w"
    status := some "active"
    created_at := some (.time 0) }

/-- The captured probe snapshot of the sample pending entry. -/
def samplePendingInfo : SessionInfo :=
  { session_id := "cs"
    device_name := "dev"
    hostname := "host"
    is_remote := false
    worktree := "/w" }

/-- A `pending` entry for transcript `"t1"` whose stored
`last_read_heartbeat_at` is one second before `envBase`'s clock. -/
def samplePendingEntry : Entry :=
  { overlap_session_id := none
    transcript_path := some "t1"
    worktree := some "/w"
    status := some "pending"
    created_at := some (.time 0)
    session_info := some samplePendingInfo
    last_read_heartbeat_at := some (.time 99) }

/-- A store holding only the sample active entry. -/
def activeWorld : World := { sessions := [("t1", sampleActiveEntry)] }

/-- A store holding only the sample pending entry. -/
def pendingWorld : World := { sessions := [("t1", samplePendingEntry)] }

/-- A post-tool-use event for a `Write` on `a.py`. -/
def writeInput : ToolHookInput :=
  { transcript_path := "t1"
    session_id := "cs"
    cwd := "/w"
    tool_name := "Write"
    tool_input := { file_path := some "a.py" } }

/-- The same event with a `Read` tool. -/
def readInput : ToolHookInput := { writeInput with tool_name := "Read" }

/-- A `MultiEdit` event touching `a.py` then `b.py`. -/
def multiEditInput : ToolHookInput :=
  { writeInput with
      tool_name := "MultiEdit"
      tool_input :=
        { edits := [{ file_path := some "a.py" }, { file_path := some "b.py" }] } }

/-- A `Bash` event with the given command string. -/
def bashInput (cmd : String) : ToolHookInput :=
  { writeInput with tool_name := "Bash", tool_input := { command := cmd } }

/-- A session-start event with source `compact`. -/
def compactInput : SSInput :=
  { source := "compact"
    transcript_path := "t1"
    session_id := "cs"
    cwd := "/w" }

/-! ## Supporting lemmas -/

theorem lookupKey_setKey_self (s : Sessions) (k : String) (e : Entry) :
    lookupKey (setKey s k e) k = some e := by
  induction s with
  | nil => simp [setKey, lookupKey]
  | cons hd tl ih =>
      obtain ⟨k2, e2⟩ := hd
      by_cases h : k2 == k
      · simp [setKey, lookupKey, h]
      · simp only [setKey, lookupKey, h, if_false, Bool.false_eq_true, if_neg]
        exact ih

theorem lookupKey_setKey_ne (s : Sessions) (k k' : String) (e : Entry)
    (h : k' ≠ k) : lookupKey (setKey s k e) k' = lookupKey s k' := by
  induction s with
  | nil => simp [setKey, lookupKey, h, Ne.symm h]
  | cons hd tl ih =>
      obtain ⟨k2, e2⟩ := hd
      by_cases h2 : k2 == k
      · have hk2 : k2 = k := by simpa using h2
        subst hk2
        simp [setKey, lookupKey, h2, Ne.symm h]
      · simp only [setKey, h2, Bool.false_eq_true, if_neg, if_false]
        by_cases h3 : k2 == k'
        · simp [lookupKey, h3]
        · simp only [lookupKey, h3, Bool.false_eq_true, if_neg, if_false]
          exact ih

theorem mergeEntry_status (now : Int) (ex : Option Entry) (p : String)
    (oid : Option String) (wt st : String) (si : Option SessionInfo) :
    (mergeEntry now ex p oid wt st si).status = some st := by
  cases si <;> rfl

theorem mergeEntry_oid (now : Int) (ex : Option Entry) (p : String)
    (oid : Option String) (wt st : String) (si : Option SessionInfo) :
    (mergeEntry now ex p oid wt st si).overlap_session_id = oid := by
  cases si <;> rfl

theorem mergeEntry_worktree (now : Int) (ex : Option Entry) (p : String)
    (oid : Option String) (wt st : String) (si : Option SessionInfo) :
    (mergeEntry now ex p oid wt st si).worktree = some wt := by
  cases si <;> rfl

theorem get_session_entry_save (now : Int) (s : Sessions) (p : String)
    (oid : Option String) (wt st : String) (si : Option SessionInfo) :
    get_session_entry (save_session_for_transcript now s p oid wt st si) p =
      some (mergeEntry now (lookupKey s (getTranscriptKey p)) p oid wt st si) := by
  unfold get_session_entry save_session_for_transcript
  exact lookupKey_setKey_self _ _ _

/-- After upserting a `pending` entry (`overlap_session_id = None`), the
active-session lookup still returns nothing. -/
theorem get_session_for_transcript_save_pending (now : Int) (s : Sessions)
    (p wt : String) (si : Option SessionInfo) :
    get_session_for_transcript
      (save_session_for_transcript now s p none wt "pending" si) p = none := by
  unfold get_session_for_transcript
  rw [get_session_entry_save]
  simp [mergeEntry_oid, isTruthyStr]

/-- On a store whose lookup shows no active session and a `pending` entry
`e`, `register_pending_session` is exactly the spec's step-2
registration of `e`. -/
theorem register_pending_session_eq_spec (env : Env) (p : String) (e : Entry)
    (w : World)
    (hA : get_session_for_transcript w.sessions p = none)
    (hE : get_session_entry w.sessions p = some e)
    (hS : e.status = some "pending") :
    register_pending_session env p w = specRegisterPending env p e w := by
  unfold register_pending_session specRegisterPending
  rw [hA, hE]
  simp [hS]

/-! ## Claims -/

/-- **C1**: `ensure_session_registered` follows the spec's short-circuiting
four-step decision procedure: an active entry answers from the store with
no network call and no state change; otherwise a `pending` entry is
registered from its previously captured `session_info` with no
environment probe, upserting to `active` on success; otherwise a missing
transcript file yields nothing with no entry created and no network call;
otherwise the environment is probed once, a fresh `pending` entry is
atomically upserted, and that entry is immediately registered. -/
theorem ensure_session_registered_four_step (env : Env) (p hsid cwd : String)
    (w : World) :
    ensure_session_registered env p hsid cwd w =
      ensureRegisteredSpec env p hsid cwd w := by
  unfold ensure_session_registered ensureRegisteredSpec
  cases hA : get_session_for_transcript w.sessions p with
  | some id => rfl
  | none =>
    cases hE : get_session_entry w.sessions p with
    | none =>
      simp only [Option.none_bind]
      unfold specFreshRegistration
      cases hT : env.transcriptExists with
      | false => simp
      | true =>
        simp only [hT, Bool.not_true, Bool.false_eq_true, if_false, if_neg]
        show register_pending_session env p _ = specRegisterPending env p _ _
        apply register_pending_session_eq_spec
        · exact get_session_for_transcript_save_pending ..
        · exact get_session_entry_save ..
        · exact mergeEntry_status ..
    | some e =>
      simp only [Option.some_bind]
      cases hP : e.status == some "pending" with
      | true =>
        simp only [hP, if_true]
        exact register_pending_session_eq_spec env p e w hA hE
          (by simpa using hP)
      | false =>
        simp only [hP, Bool.false_eq_true, if_false, if_neg]
        unfold specFreshRegistration
        cases hT : env.transcriptExists with
        | false => simp
        | true =>
          simp only [hT, Bool.not_true, Bool.false_eq_true, if_false, if_neg]
          show register_pending_session env p _ = specRegisterPending env p _ _
          apply register_pending_session_eq_spec
          · exact get_session_for_transcript_save_pending ..
          · exact get_session_entry_save ..
          · exact mergeEntry_status ..

/-- **C2**: starting from a store with no entry for the key, with the
transcript file on disk and the start endpoint returning a fixed
non-empty id, two sequential `ensure_session_registered` calls return
that id both times and issue exactly one start call; the first call
leaves an `active` entry holding the id and the second call changes
nothing. -/
theorem ensure_registered_twice_one_start_call (env : Env)
    (p hsid cwd sid : String) (w : World)
    (hfresh : get_session_entry w.sessions p = none)
    (hex : env.transcriptExists = true)
    (hresp : env.startResp w.startCalls = .ok (some sid))
    (hne : sid.isEmpty = false) :
    (ensure_session_registered env p hsid cwd w).1 = some sid ∧
    (ensure_session_registered env p hsid cwd
        (ensure_session_registered env p hsid cwd w).2).1 = some sid ∧
    (ensure_session_registered env p hsid cwd
        (ensure_session_registered env p hsid cwd w).2).2 =
      (ensure_session_registered env p hsid cwd w).2 ∧
    ((ensure_session_registered env p hsid cwd w).2).startCalls =
      w.startCalls + 1 ∧
    ((get_session_entry ((ensure_session_registered env p hsid cwd w).2).sessions
        p).map Entry.status) = some (some "active") ∧
    ((get_session_entry ((ensure_session_registered env p hsid cwd w).2).sessions
        p).map Entry.overlap_session_id) = some (some sid) := by
  have hkey : lookupKey w.sessions (getTranscriptKey p) = none := hfresh
  have hA1 : get_session_for_transcript w.sessions p = none := by
    unfold get_session_for_transcript
    rw [hfresh]
  have htruthy : isTruthyStr (some sid) = true := by
    simp [isTruthyStr, hne]
  have hr1 : ensure_session_registered env p hsid cwd w =
      (some sid,
       { w with
          probes := w.probes + 1
          startCalls := w.startCalls + 1
          startRequests := w.startRequests ++
            [buildStartRequest (mergeEntry env.now none p none cwd "pending"
              (some (probeSessionInfo env hsid cwd)))]
          sessions := save_session_for_transcript env.now
            (save_session_for_transcript env.now w.sessions p none cwd "pending"
              (some (probeSessionInfo env hsid cwd))) p (some sid) cwd
            "active" none }) := by
    unfold ensure_session_registered
    rw [hA1, hfresh, hex]
    show register_pending_session env p
      { w with
          probes := w.probes + 1
          sessions := save_session_for_transcript env.now w.sessions p none
            cwd "pending" (some (probeSessionInfo env hsid cwd)) } = _
    rw [register_pending_session_eq_spec env p
      (mergeEntry env.now none p none cwd "pending"
        (some (probeSessionInfo env hsid cwd)))]
    · unfold specRegisterPending
      simp only [hresp, htruthy, if_true, Option.getD_some]
      rfl
    · exact get_session_for_transcript_save_pending ..
    · rw [show get_session_entry (save_session_for_transcript env.now w.sessions
          p none cwd "pending" (some (probeSessionInfo env hsid cwd))) p =
          some (mergeEntry env.now (lookupKey w.sessions (getTranscriptKey p)) p
            none cwd "pending" (some (probeSessionInfo env hsid cwd)))
        from get_session_entry_save .., hkey]
    · exact mergeEntry_status ..
  have hE3 : get_session_entry (save_session_for_transcript env.now
      (save_session_for_transcript env.now w.sessions p none cwd "pending"
        (some (probeSessionInfo env hsid cwd))) p (some sid) cwd "active" none)
      p =
      some (mergeEntry env.now
        (some (mergeEntry env.now none p none cwd "pending"
          (some (probeSessionInfo env hsid cwd))))
        p (some sid) cwd "active" none) := by
    rw [get_session_entry_save]
    simp only [save_session_for_transcript]
    rw [hkey, lookupKey_setKey_self]
  have hA3 : get_session_for_transcript (save_session_for_transcript env.now
      (save_session_for_transcript env.now w.sessions p none cwd "pending"
        (some (probeSessionInfo env hsid cwd))) p (some sid) cwd "active" none)
      p = some sid := by
    unfold get_session_for_transcript
    rw [hE3]
    simp [mergeEntry_oid, htruthy]
  have h12 : (ensure_session_registered env p hsid cwd w).2 =
      { w with
          probes := w.probes + 1
          startCalls := w.startCalls + 1
          startRequests := w.startRequests ++
            [buildStartRequest (mergeEntry env.now none p none cwd "pending"
              (some (probeSessionInfo env hsid cwd)))]
          sessions := save_session_for_transcript env.now
            (save_session_for_transcript env.now w.sessions p none cwd "pending"
              (some (probeSessionInfo env hsid cwd))) p (some sid) cwd
            "active" none } := by
    rw [hr1]
  have hr2 : ensure_session_registered env p hsid cwd
      { w with
          probes := w.probes + 1
          startCalls := w.startCalls + 1
          startRequests := w.startRequests ++
            [buildStartRequest (mergeEntry env.now none p none cwd "pending"
              (some (probeSessionInfo env hsid cwd)))]
          sessions := save_session_for_transcript env.now
            (save_session_for_transcript env.now w.sessions p none cwd "pending"
              (some (probeSessionInfo env hsid cwd))) p (some sid) cwd
            "active" none } =
      (some sid,
       { w with
          probes := w.probes + 1
          startCalls := w.startCalls + 1
          startRequests := w.startRequests ++
            [buildStartRequest (mergeEntry env.now none p none cwd "pending"
              (some (probeSessionInfo env hsid cwd)))]
          sessions := save_session_for_transcript env.now
            (save_session_for_transcript env.now w.sessions p none cwd "pending"
              (some (probeSessionInfo env hsid cwd))) p (some sid) cwd
            "active" none }) := by
    unfold ensure_session_registered
    simp only [hA3]
  refine ⟨by rw [hr1], ?_, ?_, by rw [h12], ?_, ?_⟩
  · rw [h12, hr2]
  · rw [h12, hr2]
  · rw [h12]
    simp [hE3, mergeEntry_status]
  · rw [h12]
    simp [hE3, mergeEntry_oid]

/-- **C3** (code bug): the heartbeat handler never maintains the
per-category throttle timestamps.  The call
`update_session_heartbeat_time(transcript_path, is_write=is_write)` is
rejected by the function's signature (`TypeError`), so a successful
un-throttled heartbeat leaves the store unchanged, and two
write-classified events one second apart both call the heartbeat
endpoint — two remote calls where the claim demands exactly one. -/
theorem heartbeat_dual_throttle_code_bug :
    updateHeartbeatCallOk = false ∧
    (heartbeat_main envBase true writeInput activeWorld).1 = .done ∧
    ((heartbeat_main envBase true writeInput activeWorld).2).hbCalls = 1 ∧
    ((heartbeat_main envBase true writeInput activeWorld).2).sessions =
      activeWorld.sessions ∧
    (heartbeat_main { envBase with now := 101 } true writeInput
        (heartbeat_main envBase true writeInput activeWorld).2).1 = .done ∧
    ((heartbeat_main { envBase with now := 101 } true writeInput
        (heartbeat_main envBase true writeInput activeWorld).2).2).hbCalls =
      2 := by
  decide

/-- **C4** (counterexample): an invocation that ends up throttled can
still have made a network call — with a stored `pending` entry whose
`last_read_heartbeat_at` is inside the window, the handler first runs
registration (one start-endpoint call) and only then hits the throttle
and exits. -/
theorem heartbeat_throttled_after_network_registration :
    (heartbeat_main okStartEnv true readInput pendingWorld).1 = .throttled ∧
    ((heartbeat_main okStartEnv true readInput pendingWorld).2).startCalls =
      1 ∧
    ((heartbeat_main okStartEnv true readInput pendingWorld).2).hbCalls =
      0 := by
  decide

/-- **C5** (code bug): `session-start.py` imports
`get_lock_file_for_transcript` from `config`, a name `config.py` does not
define, so the handler dies of `ImportError` before `main` and exits with
status 1 on every invocation; the other three handlers' imports all
resolve. -/
theorem session_start_import_failure :
    importsResolve sessionStartConfigImports configModuleExports = false ∧
    session_start_exit_status = 1 ∧
    importsResolve heartbeatConfigImports configModuleExports = true ∧
    importsResolve conflictCheckConfigImports configModuleExports = true ∧
    importsResolve sessionEndConfigImports configModuleExports = true := by
  decide

/-- **C6** (counterexample): a fully-valid `compact` event does not
proceed — the session-start source filter rejects it with no probe and no
network call, where the claim says `compact` is accepted. -/
theorem session_start_rejects_compact :
    session_start_main okStartEnv true true compactInput { sessions := [] } =
      (.badSource, { sessions := [] }) ∧
    ((session_start_main okStartEnv true true compactInput
        { sessions := [] }).2).startCalls = 0 ∧
    ((session_start_main okStartEnv true true compactInput
        { sessions := [] }).2).probes = 0 := by
  decide

/-- **C7** (counterexample): for a MultiEdit touching `a.py` then `b.py`,
the shared extractor yields both distinct paths but the conflict-check
handler sends only `[["a.py"]]` to the check endpoint — not the full
list. -/
theorem conflict_check_multiedit_single_path :
    extract_file_paths multiEditInput.tool_input "MultiEdit" =
      ["a.py", "b.py"] ∧
    (conflict_check_main envBase true multiEditInput activeWorld).1 = .done ∧
    ((conflict_check_main envBase true multiEditInput
        activeWorld).2).checkRequests = [["a.py"]] ∧
    ¬(([["a.py"]] : List (List String)) = [["a.py", "b.py"]]) := by
  decide

theorem register_pending_session_preserves_hb (env : Env) (p : String)
    (w : World) :
    ((register_pending_session env p w).2).hbCalls = w.hbCalls ∧
    ((register_pending_session env p w).2).hbRequests = w.hbRequests := by
  unfold register_pending_session
  dsimp only
  (repeat' split) <;> exact ⟨rfl, rfl⟩

theorem ensure_session_registered_preserves_hb (env : Env)
    (p hsid cwd : String) (w : World) :
    ((ensure_session_registered env p hsid cwd w).2).hbCalls = w.hbCalls ∧
    ((ensure_session_registered env p hsid cwd w).2).hbRequests =
      w.hbRequests := by
  unfold ensure_session_registered
  split
  · exact ⟨rfl, rfl⟩
  · split
    · exact register_pending_session_preserves_hb ..
    · split
      · exact ⟨rfl, rfl⟩
      · exact register_pending_session_preserves_hb ..

/-- **C4** (amended): when the same-category stored timestamp of the
entry left by the registration step is inside the window, the handler
exits `throttled` right after that check — before path extraction, with
no heartbeat-endpoint call and no heartbeat-request logged — but the
registration step itself has already run (and may have called the start
endpoint, as the counterexample shows). -/
theorem heartbeat_throttle_before_heartbeat_call (env : Env)
    (inp : ToolHookInput) (w : World) (oid : String)
    (hp : inp.transcript_path.isEmpty = false)
    (hreg : (ensure_session_registered env inp.transcript_path inp.session_id
        inp.cwd w).1 = some oid)
    (hth : heartbeatThrottled env.now
        ((ensure_session_registered env inp.transcript_path inp.session_id
          inp.cwd w).2).sessions inp.transcript_path inp.tool_name = true) :
    heartbeat_main env true inp w =
      (.throttled,
       (ensure_session_registered env inp.transcript_path inp.session_id
         inp.cwd w).2) ∧
    ((heartbeat_main env true inp w).2).hbCalls = w.hbCalls ∧
    ((heartbeat_main env true inp w).2).hbRequests = w.hbRequests := by
  have h1 : heartbeat_main env true inp w =
      (.throttled,
       (ensure_session_registered env inp.transcript_path inp.session_id
         inp.cwd w).2) := by
    unfold heartbeat_main
    rw [hp]
    simp only [Bool.not_true, Bool.false_eq_true, if_false, hreg, hth, if_true]
  refine ⟨h1, ?_, ?_⟩
  · rw [h1]
    exact (ensure_session_registered_preserves_hb ..).1
  · rw [h1]
    exact (ensure_session_registered_preserves_hb ..).2

/-- Witness for the amended C4 theorem at the counterexample state. -/
theorem heartbeat_throttle_before_heartbeat_call_witness :
    heartbeat_main okStartEnv true readInput pendingWorld =
      (.throttled,
       (ensure_session_registered okStartEnv readInput.transcript_path
         readInput.session_id readInput.cwd pendingWorld).2) ∧
    ((heartbeat_main okStartEnv true readInput pendingWorld).2).hbCalls =
      pendingWorld.hbCalls ∧
    ((heartbeat_main okStartEnv true readInput pendingWorld).2).hbRequests =
      pendingWorld.hbRequests :=
  heartbeat_throttle_before_heartbeat_call okStartEnv readInput pendingWorld
    "S1" (by decide) (by decide) (by decide)

theorem dedupKeepFirst_subset : ∀ (l : List String) (x : String),
    x ∈ dedupKeepFirst l → x ∈ l := by
  intro l
  induction l using dedupKeepFirst.induct with
  | case1 => intro x h; rw [dedupKeepFirst] at h; exact h
  | case2 p rest ih =>
    intro x h
    rw [dedupKeepFirst] at h
    rcases List.mem_cons.mp h with h1 | h2
    · simp [h1]
    · have h3 := List.mem_of_mem_filter (ih x h2)
      simp [h3]

theorem dedupKeepFirst_nodup : ∀ l : List String, (dedupKeepFirst l).Nodup := by
  intro l
  induction l using dedupKeepFirst.induct with
  | case1 => simp [dedupKeepFirst]
  | case2 p rest ih =>
    rw [dedupKeepFirst]
    refine List.nodup_cons.mpr ⟨?_, ih⟩
    intro hmem
    have h2 := dedupKeepFirst_subset _ _ hmem
    have h3 := List.of_mem_filter h2
    simp at h3

theorem multiEditGo_eq (edits : List EditItem) :
    ∀ acc : List String, multiEditGo edits acc =
      acc ++ dedupKeepFirst ((edits.filterMap truthyPath).filter
        (fun q => !acc.contains q)) := by
  induction edits with
  | nil => intro acc; simp [multiEditGo, dedupKeepFirst]
  | cons e rest ih =>
    intro acc
    cases hfp : e.file_path with
    | none =>
      simp only [multiEditGo, hfp, List.filterMap_cons, truthyPath]
      exact ih acc
    | some p =>
      cases hemp : p.isEmpty with
      | true =>
        have ht : truthyPath e = none := by simp [truthyPath, hfp, hemp]
        simp only [multiEditGo, hfp, hemp, List.filterMap_cons, ht,
          Bool.not_true, Bool.false_and, Bool.false_eq_true, if_false]
        exact ih acc
      | false =>
        have ht : truthyPath e = some p := by simp [truthyPath, hfp, hemp]
        cases hmem : acc.contains p with
        | true =>
          simp only [multiEditGo, hfp, hemp, hmem, List.filterMap_cons, ht,
            Bool.not_false, Bool.not_true, Bool.true_and, Bool.and_false,
            Bool.false_eq_true, if_false, List.filter_cons]
          exact ih acc
        | false =>
          simp only [multiEditGo, hfp, hemp, hmem, List.filterMap_cons, ht,
            Bool.not_false, Bool.true_and, Bool.and_self, if_true,
            List.filter_cons]
          rw [ih (acc ++ [p])]
          rw [dedupKeepFirst]
          rw [← List.append_cons]
          congr 2
          rw [List.filter_filter]
          refine congrArg dedupKeepFirst (List.filter_congr ?_)
          intro q _
          by_cases h1 : q = p <;> by_cases h2 : q ∈ acc <;>
            simp [h1, h2, List.mem_append, hmem]

/-- **C6** (amended): the session-start handler accepts exactly the event
kinds `startup` and `resume`: it no-ops at the source filter precisely
when the source is any other value — including `compact`. -/
theorem session_start_source_filter (env : Env) (configured lockOk : Bool)
    (inp : SSInput) (w : World) :
    ((session_start_main env configured lockOk inp w).1 == SSExit.badSource) =
      !(inp.source == "startup" || inp.source == "resume") := by
  unfold session_start_main
  cases h : (inp.source == "startup" || inp.source == "resume") with
  | false => rfl
  | true =>
    simp only [Bool.not_true, Bool.false_eq_true, if_false]
    split
    · rfl
    · split
      · rfl
      · split
        · rfl
        · split
          · rfl
          · split
            · rfl
            · split
              · rfl
              · split <;> rfl

/-- **C7** (amended): the conflict-check handler sends at most a
one-element files list, holding the single path its own extractor
returns — for a MultiEdit, the first edit's target; the
all-distinct-paths-in-first-appearance-order extraction lives in the
shared `extract_file_paths` (used by the heartbeat handler), whose
MultiEdit result is exactly the first-appearance deduplication of the
truthy edit paths and has no duplicates. -/
theorem conflict_check_single_path_and_dedup :
    (∀ (env : Env) (c : Bool) (inp : ToolHookInput) (w : World),
      ((conflict_check_main env c inp w).2).checkRequests = w.checkRequests ∨
      ∃ p0, extract_file_path inp.tool_input inp.tool_name = some p0 ∧
        ((conflict_check_main env c inp w).2).checkRequests =
          w.checkRequests ++ [[make_relative env.relpath p0 inp.cwd]]) ∧
    (∀ ti : ToolInput, extract_file_path ti "MultiEdit" =
      ti.edits.head?.bind EditItem.file_path) ∧
    (∀ edits : List EditItem,
      multiEditPaths edits = dedupKeepFirst (edits.filterMap truthyPath)) ∧
    (∀ edits : List EditItem, (multiEditPaths edits).Nodup) := by
  refine ⟨?_, ?_, ?_, ?_⟩
  · intro env c inp w
    unfold conflict_check_main
    dsimp only
    split
    · left; rfl
    · split
      · left; rfl
      · split
        · left; rfl
        · split
          · left; rfl
          · rename_i hfp
            right
            cases hx : extract_file_path inp.tool_input inp.tool_name with
            | none => rw [hx] at hfp; simp [isTruthyStr] at hfp
            | some s => exact ⟨s, rfl, by simp⟩
  · intro ti
    rcases hE : ti.edits with _ | ⟨e, rest⟩ <;> simp [extract_file_path, hE]
  · intro edits
    unfold multiEditPaths
    rw [multiEditGo_eq]
    simp
  · intro edits
    unfold multiEditPaths
    rw [multiEditGo_eq]
    simpa using dedupKeepFirst_nodup _

/-- **C8**: `gc_stale_sessions` keeps exactly the entries whose
`created_at` parses and is within the age ceiling, returns the number of
entries removed (those missing, unparseable, or strictly older), and at
the boundary: an entry created exactly `max_age_hours` ago is retained,
one a second older is removed, and an entry with a missing or
unparseable `created_at` is removed regardless of its other fields. -/
theorem gc_stale_sessions_exact (now max_age : Int) (s : Sessions)
    (k raw : String) (e : Entry) :
    ((gc_stale_sessions now max_age s).1 = s.filter (fun ke =>
      match ke.2.created_at with
      | some (.time t) => decide (now - t ≤ max_age * 3600)
      | _ => false)) ∧
    ((gc_stale_sessions now max_age s).2 = (s.filter (fun ke =>
      match ke.2.created_at with
      | some (.time t) => decide (now - t > max_age * 3600)
      | _ => true)).length) ∧
    (gc_stale_sessions now max_age
        [(k, { e with created_at := some (.time (now - max_age * 3600)) })] =
      ([(k, { e with created_at := some (.time (now - max_age * 3600)) })],
       0)) ∧
    (gc_stale_sessions now max_age
        [(k, { e with
            created_at := some (.time (now - max_age * 3600 - 1)) })] =
      ([], 1)) ∧
    (gc_stale_sessions now max_age [(k, { e with created_at := none })] =
      ([], 1)) ∧
    (gc_stale_sessions now max_age
        [(k, { e with created_at := some (.unparseable raw) })] =
      ([], 1)) := by
  have hb1 : gcRemove now max_age
      { e with created_at := some (.time (now - max_age * 3600)) } = false := by
    simp only [gcRemove]
    simp only [decide_eq_false_iff_not]
    omega
  have hb2 : gcRemove now max_age
      { e with created_at := some (.time (now - max_age * 3600 - 1)) } =
      true := by
    simp only [gcRemove]
    simp only [decide_eq_true_eq]
    omega
  refine ⟨?_, ?_, ?_, ?_, ?_, ?_⟩
  · simp only [gc_stale_sessions]
    refine List.filter_congr ?_
    intro ke _
    rcases hE : ke.2.created_at with _ | tf
    · simp [gcRemove, hE]
    · cases tf with
      | unparseable r => simp [gcRemove, hE]
      | time t =>
        simp only [gcRemove, hE]
        rw [← decide_not]
        simp [not_lt]
  · simp only [gc_stale_sessions]
    refine congrArg List.length (List.filter_congr ?_)
    intro ke _
    rcases hE : ke.2.created_at with _ | tf
    · simp [gcRemove, hE]
    · cases tf with
      | unparseable r => simp [gcRemove, hE]
      | time t => simp [gcRemove, hE]
  · simp [gc_stale_sessions, hb1]
  · simp [gc_stale_sessions, hb2]
  · simp [gc_stale_sessions, gcRemove]
  · simp [gc_stale_sessions, gcRemove]

theorem apiRequestGo_conn (outcomes : Nat → AttemptOutcome) (b : ℚ)
    (msgs : Nat → String) :
    ∀ (r i : Nat) (lastErr : Option String), 0 < r →
      (∀ j, j < r → outcomes (i + 1 + j) = .connError (msgs (i + 1 + j))) →
      apiRequestGo outcomes b (i + 1) r lastErr =
        (.error (connMessage (msgs (i + r))), r,
         (List.range r).map (fun j => b * 2 ^ (i + j))) := by
  intro r
  induction r with
  | zero => intro i lastErr hr hconn; exact absurd hr (lt_irrefl 0)
  | succ r ih =>
    intro i lastErr hr hconn
    have houtc : outcomes (i + 1) = .connError (msgs (i + 1)) := by
      simpa using hconn 0 (Nat.succ_pos r)
    cases r with
    | zero =>
      simp [apiRequestGo, houtc, List.range_succ]
    | succ r2 =>
      have hshift : ∀ j, j < r2 + 1 →
          outcomes (i + 1 + 1 + j) = .connError (msgs (i + 1 + 1 + j)) := by
        intro j hj
        have h := hconn (j + 1) (by omega)
        have e : i + 1 + (j + 1) = i + 1 + 1 + j := by omega
        rw [e] at h
        exact h
      rw [apiRequestGo]
      simp only [houtc]
      rw [ih (i + 1) (some (connMessage (msgs (i + 1)))) (Nat.succ_pos r2)
        hshift]
      rw [if_pos (Nat.succ_pos i)]
      have e1 : i + 1 + (r2 + 1) = i + (r2 + 1 + 1) := by omega
      have hmaps : (List.range (r2 + 1 + 1)).map (fun j => b * 2 ^ (i + j)) =
          b * 2 ^ i :: (List.range (r2 + 1)).map
            (fun j => b * 2 ^ (i + 1 + j)) := by
        rw [List.range_succ_eq_map]
        simp only [List.map_cons, List.map_map, Nat.add_zero]
        refine congrArg (fun l => b * 2 ^ i :: l) (List.map_congr_left ?_)
        intro j _
        simp only [Function.comp_apply]
        have e2 : i + (j + 1) = i + 1 + j := by omega
        rw [e2]
      rw [hmaps, e1]
      simp

theorem api_request_conn_backoff (outcomes : Nat → AttemptOutcome) (b : ℚ)
    (retries : Nat) (msgs : Nat → String)
    (hconn : ∀ j, j ≤ retries → outcomes j = .connError (msgs j)) :
    api_request_model outcomes b retries =
      (.error (connMessage (msgs retries)), retries + 1,
       (List.range retries).map (fun j => b * 2 ^ j)) := by
  have houtc : outcomes 0 = .connError (msgs 0) := hconn 0 (Nat.zero_le _)
  cases retries with
  | zero =>
    simp [api_request_model, apiRequestGo, houtc]
  | succ r =>
    have hshift : ∀ j, j < r + 1 →
        outcomes (0 + 1 + j) = .connError (msgs (0 + 1 + j)) := by
      intro j hj
      exact hconn (0 + 1 + j) (by omega)
    unfold api_request_model
    rw [apiRequestGo]
    simp only [houtc]
    rw [apiRequestGo_conn outcomes b msgs (r + 1) 0
      (some (connMessage (msgs 0))) (Nat.succ_pos r) (by simpa using hshift)]
    simp [List.range_succ_eq_map, List.map_map, Function.comp]

theorem api_request_4xx_immediate (outcomes : Nat → AttemptOutcome) (b : ℚ)
    (retries : Nat) (code : Nat) (body : ErrBody)
    (h1 : 400 ≤ code) (h2 : code < 500)
    (h0 : outcomes 0 = .httpError code body) :
    api_request_model outcomes b retries =
      (.error (http4xxMessage code body), 1, []) := by
  unfold api_request_model
  simp only [apiRequestGo, h0]
  rw [if_pos ⟨h1, h2⟩]
  simp

/-- **C9**: a 4xx response is never retried: whatever the retry budget,
the request raises immediately after one attempt with no backoff sleeps,
carrying the body's JSON `error` message when present and a generic
HTTP-status message otherwise; while a run of connection failures is
retried up to the budget — `retries + 1` attempts with sleeps doubling
from the base delay — after which the last connection error is raised. -/
theorem api_request_error_convention :
    (∀ (outcomes : Nat → AttemptOutcome) (b : ℚ) (retries code : Nat)
        (body : ErrBody), 400 ≤ code → code < 500 →
      outcomes 0 = .httpError code body →
      api_request_model outcomes b retries =
        (.error (http4xxMessage code body), 1, [])) ∧
    (∀ (code : Nat) (raw m : String),
      http4xxMessage code (.jsonBody raw (some m)) = m) ∧
    (∀ (code : Nat) (raw : String),
      http4xxMessage code (.notJson raw) = s!"HTTP {code}: {raw}") ∧
    (∀ (outcomes : Nat → AttemptOutcome) (b : ℚ) (retries : Nat)
        (msgs : Nat → String),
      (∀ j, j ≤ retries → outcomes j = .connError (msgs j)) →
      api_request_model outcomes b retries =
        (.error (connMessage (msgs retries)), retries + 1,
         (List.range retries).map (fun j => b * 2 ^ j))) := by
  refine ⟨?_, fun _ _ _ => rfl, fun _ _ => rfl, ?_⟩
  · intro outcomes b retries code body h1 h2 h0
    exact api_request_4xx_immediate outcomes b retries code body h1 h2 h0
  · intro outcomes b retries msgs hconn
    exact api_request_conn_backoff outcomes b retries msgs hconn

/-- Witness for C9: a 404 with a JSON error body raises `"boom"` after
one call and no sleeps even with budget 3; three straight connection
failures with budget 2 make 3 attempts with sleeps `[1/2, 1]`. -/
theorem api_request_error_convention_witness :
    api_request_model (fun _ => .httpError 404 (.jsonBody "x" (some "boom")))
      (1 / 2) 3 = (.error "boom", 1, []) ∧
    api_request_model (fun _ => .connError "refused") (1 / 2) 2 =
      (.error (connMessage "refused"), 3, [1 / 2, 1]) := by
  constructor
  · have h := api_request_error_convention.1
      (fun _ => .httpError 404 (.jsonBody "x" (some "boom"))) (1 / 2) 3 404
      (.jsonBody "x" (some "boom")) (by norm_num) (by norm_num) rfl
    simpa [http4xxMessage] using h
  · have h := api_request_error_convention.2.2.2
      (fun _ => .connError "refused") (1 / 2) 2 (fun _ => "refused")
      (fun j _ => rfl)
    rw [h]
    norm_num [List.range_succ]

/-- **C10**: for a post-tool-use `Bash` event against a registered
session, the extracted file-path list is exactly the singleton of the
command's first 200 characters, and the heartbeat sends that truncated
command (after best-effort relativization) as its one-element files
list; an empty command yields an empty list and the run exits before any
heartbeat call. -/
theorem heartbeat_bash_truncated_command (relp : String → String → String)
    (now : Int) (p sid cs cwd cmd : String)
    (hp : p.isEmpty = false) (hs : sid.isEmpty = false) :
    extract_file_paths ({ command := cmd } : ToolInput) "Bash" =
      (if cmd.isEmpty then [] else [cmd.take 200]) ∧
    heartbeat_main (bashEnv relp now) true (bashHookInput p cs cwd cmd)
        (activeWorldFor p sid) =
      (if cmd.isEmpty then (HBExit.noFiles, activeWorldFor p sid)
       else (HBExit.done,
         { activeWorldFor p sid with
             hbCalls := 1
             hbRequests := [{ session := sid
                              files := [make_relative relp (cmd.take 200) cwd]
                              tool_name := "Bash" }] })) := by
  have hA : get_session_for_transcript (activeWorldFor p sid).sessions p =
      some sid := by
    simp [get_session_for_transcript, get_session_entry, activeWorldFor,
      lookupKey, activeEntryFor, isTruthyStr, hs]
  have hreg : ensure_session_registered (bashEnv relp now) p cs cwd
      (activeWorldFor p sid) = (some sid, activeWorldFor p sid) := by
    unfold ensure_session_registered
    rw [hA]
  have hth : heartbeatThrottled (bashEnv relp now).now
      (activeWorldFor p sid).sessions p "Bash" = false := by
    simp [heartbeatThrottled, get_session_entry, activeWorldFor, lookupKey,
      activeEntryFor, heartbeatThrottleField, is_write_tool, WRITE_TOOLS,
      throttleHit]
  constructor
  · simp [extract_file_paths]
  · unfold heartbeat_main
    simp only [bashHookInput, hp, Bool.not_true, Bool.false_eq_true, if_false,
      hreg, hth]
    cases hcmd : cmd.isEmpty with
    | true => simp [extract_file_paths, hcmd]
    | false =>
      simp [extract_file_paths, hcmd, bashEnv, heartbeatAfterOk,
        attemptUpdateHeartbeatTime, updateHeartbeatCallOk,
        updateSessionHeartbeatTimeParams, updateHeartbeatCallKeywords,
        activeWorldFor]

/-- Witness for C10 at a concrete command and identity `relpath`. -/
theorem heartbeat_bash_truncated_command_witness :
    extract_file_paths ({ command := "make test" } : ToolInput) "Bash" =
      (if ("make test" : String).isEmpty then []
       else [("make test" : String).take 200]) ∧
    heartbeat_main (bashEnv (fun a _ => a) 100) true
        (bashHookInput "t1" "cs" "/w" "make test") (activeWorldFor "t1" "S") =
      (if ("make test" : String).isEmpty then
         (HBExit.noFiles, activeWorldFor "t1" "S")
       else (HBExit.done,
         { activeWorldFor "t1" "S" with
             hbCalls := 1
             hbRequests := [{ session := "S"
                              files := [make_relative (fun a _ => a)
                                (("make test" : String).take 200) "/w"]
                              tool_name := "Bash" }] })) :=
  heartbeat_bash_truncated_command (fun a _ => a) 100 "t1" "S" "cs" "/w"
    "make test" (by decide) (by decide)

/-- Witness for C2: a fresh key, the start endpoint answering `"S1"`. -/
theorem ensure_registered_twice_one_start_call_witness :
    (ensure_session_registered okStartEnv "t1" "cs" "/w"
        { sessions := [] }).1 = some "S1" ∧
    (ensure_session_registered okStartEnv "t1" "cs" "/w"
        (ensure_session_registered okStartEnv "t1" "cs" "/w"
          { sessions := [] }).2).1 = some "S1" ∧
    (ensure_session_registered okStartEnv "t1" "cs" "/w"
        (ensure_session_registered okStartEnv "t1" "cs" "/w"
          { sessions := [] }).2).2 =
      (ensure_session_registered okStartEnv "t1" "cs" "/w"
        { sessions := [] }).2 ∧
    ((ensure_session_registered okStartEnv "t1" "cs" "/w"
        { sessions := [] }).2).startCalls =
      ({ sessions := [] } : World).startCalls + 1 ∧
    ((get_session_entry ((ensure_session_registered okStartEnv "t1" "cs" "/w"
        { sessions := [] }).2).sessions "t1").map Entry.status) =
      some (some "active") ∧
    ((get_session_entry ((ensure_session_registered okStartEnv "t1" "cs" "/w"
        { sessions := [] }).2).sessions "t1").map Entry.overlap_session_id) =
      some (some "S1") :=
  ensure_registered_twice_one_start_call okStartEnv "t1" "cs" "/w" "S1"
    { sessions := [] } (by decide) rfl rfl (by decide)

end Overlap
